import Mathlib

/-!
Verification of the declarative endpoint-binding and request-execution layer
(`fitrequest` / `skillcorner` client) of this repository.

The Python source is shallowly embedded: decoded response bodies become the
`JsonVal` type, Python exceptions become the `PyErr` type, the HTTP transport
(an out-of-scope collaborator) becomes an explicit `server : String → JsonVal`
map from endpoint paths to decoded bodies, and the unbounded `while True`
pagination loop becomes a fuel-indexed recursion whose `outOfFuel` outcome
(for every fuel) represents divergence.
-/

namespace Spec2Proof

/-- Decoded Python/JSON values: the union `bytes | dict | str | list | int |
bool | None` that decoded response bodies range over in the source
(`FitRequest._handle_response` returns `Union[bytes, dict, str, Element]`;
JSON decoding yields nested dicts/lists/strings/numbers/bools/None).
Dicts are association lists with insertion order, as in Python. -/
inductive JsonVal where
  | null
  | bool (b : Bool)
  | num (n : Int)
  | str (s : String)
  | list (xs : List JsonVal)
  | obj (fs : List (String × JsonVal))
deriving Repr

mutual
/-- Decidable equality on `JsonVal` (the nested inductive defeats automatic
derivation, so it is spelled out). -/
def decEqJ : (a b : JsonVal) → Decidable (a = b)
  | .null, .null => isTrue rfl
  | .null, .bool _ => isFalse (fun h => JsonVal.noConfusion h)
  | .null, .num _ => isFalse (fun h => JsonVal.noConfusion h)
  | .null, .str _ => isFalse (fun h => JsonVal.noConfusion h)
  | .null, .list _ => isFalse (fun h => JsonVal.noConfusion h)
  | .null, .obj _ => isFalse (fun h => JsonVal.noConfusion h)
  | .bool _, .null => isFalse (fun h => JsonVal.noConfusion h)
  | .bool x, .bool y =>
    if h : x = y then isTrue (by rw [h]) else isFalse (by intro he; injection he; contradiction)
  | .bool _, .num _ => isFalse (fun h => JsonVal.noConfusion h)
  | .bool _, .str _ => isFalse (fun h => JsonVal.noConfusion h)
  | .bool _, .list _ => isFalse (fun h => JsonVal.noConfusion h)
  | .bool _, .obj _ => isFalse (fun h => JsonVal.noConfusion h)
  | .num _, .null => isFalse (fun h => JsonVal.noConfusion h)
  | .num _, .bool _ => isFalse (fun h => JsonVal.noConfusion h)
  | .num x, .num y =>
    if h : x = y then isTrue (by rw [h]) else isFalse (by intro he; injection he; contradiction)
  | .num _, .str _ => isFalse (fun h => JsonVal.noConfusion h)
  | .num _, .list _ => isFalse (fun h => JsonVal.noConfusion h)
  | .num _, .obj _ => isFalse (fun h => JsonVal.noConfusion h)
  | .str _, .null => isFalse (fun h => JsonVal.noConfusion h)
  | .str _, .bool _ => isFalse (fun h => JsonVal.noConfusion h)
  | .str _, .num _ => isFalse (fun h => JsonVal.noConfusion h)
  | .str x, .str y =>
    if h : x = y then isTrue (by rw [h]) else isFalse (by intro he; injection he; contradiction)
  | .str _, .list _ => isFalse (fun h => JsonVal.noConfusion h)
  | .str _, .obj _ => isFalse (fun h => JsonVal.noConfusion h)
  | .list _, .null => isFalse (fun h => JsonVal.noConfusion h)
  | .list _, .bool _ => isFalse (fun h => JsonVal.noConfusion h)
  | .list _, .num _ => isFalse (fun h => JsonVal.noConfusion h)
  | .list _, .str _ => isFalse (fun h => JsonVal.noConfusion h)
  | .list xs, .list ys =>
    match decEqJList xs ys with
    | isTrue h => isTrue (by rw [h])
    | isFalse _ => isFalse (by intro he; injection he; contradiction)
  | .list _, .obj _ => isFalse (fun h => JsonVal.noConfusion h)
  | .obj _, .null => isFalse (fun h => JsonVal.noConfusion h)
  | .obj _, .bool _ => isFalse (fun h => JsonVal.noConfusion h)
  | .obj _, .num _ => isFalse (fun h => JsonVal.noConfusion h)
  | .obj _, .str _ => isFalse (fun h => JsonVal.noConfusion h)
  | .obj _, .list _ => isFalse (fun h => JsonVal.noConfusion h)
  | .obj xs, .obj ys =>
    match decEqJObj xs ys with
    | isTrue h => isTrue (by rw [h])
    | isFalse _ => isFalse (by intro he; injection he; contradiction)

/-- Decidable equality on lists of `JsonVal`. -/
def decEqJList : (a b : List JsonVal) → Decidable (a = b)
  | [], [] => isTrue rfl
  | [], _ :: _ => isFalse (fun h => List.noConfusion h)
  | _ :: _, [] => isFalse (fun h => List.noConfusion h)
  | x :: xs, y :: ys =>
    match decEqJ x y, decEqJList xs ys with
    | isTrue h1, isTrue h2 => isTrue (by rw [h1, h2])
    | isFalse _, _ => isFalse (by intro he; injection he; contradiction)
    | _, isFalse _ => isFalse (by intro he; injection he; contradiction)

/-- Decidable equality on association lists of `JsonVal`. -/
def decEqJObj : (a b : List (String × JsonVal)) → Decidable (a = b)
  | [], [] => isTrue rfl
  | [], _ :: _ => isFalse (fun h => List.noConfusion h)
  | _ :: _, [] => isFalse (fun h => List.noConfusion h)
  | (k1, v1) :: xs, (k2, v2) :: ys =>
    match String.decEq k1 k2, decEqJ v1 v2, decEqJObj xs ys with
    | isTrue hk, isTrue hv, isTrue ht => isTrue (by rw [hk, hv, ht])
    | isFalse _, _, _ => isFalse (by intro he; injection he with h1 h2; injection h1; contradiction)
    | _, isFalse _, _ => isFalse (by intro he; injection he with h1 h2; injection h1; contradiction)
    | _, _, isFalse _ => isFalse (by intro he; injection he with h1 h2; contradiction)
end

instance : DecidableEq JsonVal := decEqJ

/-- Python exceptions that the embedded code can raise. -/
inductive PyErr where
  | keyError (k : String)
  | valueError (msg : String)
  | fileExistsError
  | attributeError
  | indexError
  | typeError
deriving DecidableEq, Repr

instance {ε α : Type} [DecidableEq ε] [DecidableEq α] : DecidableEq (Except ε α) := fun a b =>
  match a, b with
  | .ok x, .ok y =>
    if h : x = y then isTrue (by rw [h]) else isFalse (by intro he; injection he; contradiction)
  | .error x, .error y =>
    if h : x = y then isTrue (by rw [h]) else isFalse (by intro he; injection he; contradiction)
  | .ok _, .error _ => isFalse (fun h => Except.noConfusion h)
  | .error _, .ok _ => isFalse (fun h => Except.noConfusion h)

instance : DecidableEq (String × JsonVal) := fun a b =>
  match String.decEq a.1 b.1, decEqJ a.2 b.2 with
  | isTrue hk, isTrue hv => isTrue (Prod.ext hk hv)
  | isFalse hk, _ => isFalse (fun h => hk (congrArg Prod.fst h))
  | _, isFalse hv => isFalse (fun h => hv (congrArg Prod.snd h))

/-- Python `dict` subscription `d[k]` on an association list: first binding
wins (keys are unique in the source's literals); `none` models `KeyError`. -/
def jlookup : List (String × JsonVal) → String → Option JsonVal
  | [], _ => none
  | (k', v) :: rest, k => if k' = k then some v else jlookup rest k

/-- Python `dict.get(k, default)`. -/
def jget (fs : List (String × JsonVal)) (k : String) (dflt : JsonVal) : JsonVal :=
  (jlookup fs k).getD dflt

/-- Python truthiness (`bool(v)`) on embedded values. -/
def JsonVal.truthy : JsonVal → Bool
  | .null => false
  | .bool b => b
  | .num n => n != 0
  | .str s => !s.isEmpty
  | .list xs => !xs.isEmpty
  | .obj fs => !fs.isEmpty

/-- Whether a decoded value is a Python `dict` (`isinstance(v, dict)`). -/
def JsonVal.isObj : JsonVal → Bool
  | .obj _ => true
  | _ => false

/-- `'key' in v` for a dict value (false on non-dicts only as a helper;
the source always guards with `isinstance`). -/
def JsonVal.hasKey : JsonVal → String → Bool
  | .obj fs, k => (jlookup fs k).isSome
  | _, _ => false

mutual
/-- Python `repr(v)` on embedded values (simplified: string quoting does not
escape embedded quotes/backslashes; the repository never feeds such values). -/
def pyRepr : JsonVal → String
  | .null => "None"
  | .bool true => "True"
  | .bool false => "False"
  | .num n => toString n
  | .str s => "'" ++ s ++ "'"
  | .list xs => "[" ++ pyReprList xs ++ "]"
  | .obj fs => "\x7b" ++ pyReprObj fs ++ "\x7d"

/-- Comma-separated `repr` of list elements, as Python's list `repr`. -/
def pyReprList : List JsonVal → String
  | [] => ""
  | [x] => pyRepr x
  | x :: rest => pyRepr x ++ ", " ++ pyReprList rest

/-- Comma-separated `repr` of dict items, as Python's dict `repr`. -/
def pyReprObj : List (String × JsonVal) → String
  | [] => ""
  | [(k, v)] => "'" ++ k ++ "': " ++ pyRepr v
  | (k, v) :: rest => "'" ++ k ++ "': " ++ pyRepr v ++ ", " ++ pyReprObj rest
end

/-- Python `str(v)`: identity on strings, `repr`-like elsewhere. -/
def pyStr : JsonVal → String
  | .str s => s
  | v => pyRepr v

/-! ## String primitives

The built-in `String` functions that walk byte positions do not reduce in the
kernel, so the Python string operations the source uses are modelled over the
underlying character list. -/

/-- Python `str.split(sep)` for a non-empty separator, over character lists:
split on every non-overlapping occurrence, left to right. The first argument
is fuel, always called with the length of the string plus one. -/
def pySplitGo (sep : List Char) : Nat → List Char → List Char → List (List Char)
  | 0, rem, acc => [acc.reverse ++ rem]
  | _ + 1, [], acc => [acc.reverse]
  | fuel + 1, c :: rest, acc =>
    if sep.isPrefixOf (c :: rest) then
      acc.reverse :: pySplitGo sep fuel ((c :: rest).drop sep.length) []
    else
      pySplitGo sep fuel rest (c :: acc)

/-- Python `s.split(sep)` for strings (non-empty `sep`; the source never
splits on an empty separator). -/
def pySplit (s sep : String) : List String :=
  (pySplitGo sep.data (s.data.length + 1) s.data []).map String.mk

/-- Python `s.lstrip("/")`: drop leading slashes. -/
def lstripSlash (s : String) : String :=
  String.mk (s.data.dropWhile (· = '/'))

/-- `s.startswith(pre)`. -/
def strStartsWith (s pre : String) : Bool :=
  pre.data.isPrefixOf s.data

/-- `s.lower()` (ASCII case folding suffices for URL schemes). -/
def strToLower (s : String) : String :=
  String.mk (s.data.map Char.toLower)

/-! ## Request Executor (`fitrequest/client.py`) -/

/-- Characters legal in a URL scheme after the leading letter
(`urllib.parse` scheme characters). -/
def isSchemeChar (c : Char) : Bool :=
  c.isAlphanum || c == '+' || c == '-' || c == '.'

/-- Model of `urllib.parse.urlparse` restricted to the two components the
source inspects: returns `(scheme, netloc)`. The scheme is the text before
the first `:` when it is a well-formed scheme (leading letter, scheme
characters), lowercased; the netloc is the text between a leading `//` of the
remainder and the next `/`, `?` or `#`. Absent components are `""`, matching
`ParseResult`'s empty-string defaults. -/
def urlparse_scheme_netloc (url : String) : String × String :=
  let (scheme, rest) :=
    match pySplit url ":" with
    | pre :: r :: rs =>
      if pre ≠ "" && (pre.data.headD ' ').isAlpha && pre.data.all isSchemeChar then
        (strToLower pre, String.intercalate ":" (r :: rs))
      else ("", url)
    | _ => ("", url)
  let netloc :=
    if strStartsWith rest "//" then
      String.mk ((rest.data.drop 2).takeWhile (fun c => c ≠ '/' && c ≠ '?' && c ≠ '#'))
    else ""
  (scheme, netloc)

/-- `FitRequest._is_url_valid`: parse the URL and require both a scheme and
a netloc to be non-empty (`all([result.scheme, result.netloc])`). -/
def is_url_valid (url : String) : Bool :=
  let (scheme, netloc) := urlparse_scheme_netloc url
  !scheme.isEmpty && !netloc.isEmpty

/-- Outcome of `FitRequest._build_final_url`. The source reads
`return url if self._is_url_valid(url) else ValueError(f'Invalid URL: {url}')`:
on an invalid URL it RETURNS the `ValueError` instance as an ordinary value
(it does not raise), so the embedding's result type has a constructor for the
returned exception object and no raising path at all. -/
inductive BuildUrlResult where
  | url (s : String)
  | valueErrorObject (msg : String)
deriving DecidableEq, Repr

/-- `FitRequest._build_final_url`: `f'{self.base_url}/{endpoint.lstrip("/")}'`,
then the validity test deciding between the URL string and a returned
`ValueError` object. -/
def build_final_url (base_url : String) (endpoint : String) : BuildUrlResult :=
  let url := base_url ++ "/" ++ lstripSlash endpoint
  if is_url_valid url then .url url else .valueErrorObject ("Invalid URL: " ++ url)

/-- The response-key unwrap at the tail of `FitRequest._request`:
`response[response_key] if isinstance(response, dict) and response_key else response`.
A dict response with a truthy (non-empty) declared key is subscripted —
raising `KeyError` when the key is absent; every other case returns the
decoded response unchanged. -/
def unwrap_response (response : JsonVal) (response_key : Option String) : Except PyErr JsonVal :=
  match response, response_key with
  | .obj fs, some k =>
    if k = "" then .ok response
    else
      match jlookup fs k with
      | some v => .ok v
      | none => .error (.keyError k)
  | _, _ => .ok response

/-- `FitRequest._transform_params`: each `list` value becomes
`','.join([str(x) for x in v])`; every other value passes through unchanged. -/
def transform_params (params : List (String × JsonVal)) : List (String × JsonVal) :=
  params.map fun kv =>
    match kv with
    | (k, .list xs) => (k, .str (String.intercalate "," (xs.map pyStr)))
    | (k, v) => (k, v)

/-- One HTTP round trip of `FitRequest._request` at the decoded level. The
transport, content-type decoding and URL construction are out-of-scope
collaborators here, abstracted as `server : String → JsonVal` mapping the
(placeholder-free) endpoint path to the decoded body; the in-repository
response-key unwrap is applied to the decoded body. Always exactly one HTTP
call per invocation. -/
def fr_request (server : String → JsonVal) (response_key : Option String)
    (endpoint : String) : Except PyErr JsonVal :=
  unwrap_response (server endpoint) response_key

/-! ## Pagination Wrapper (`skillcorner/client.py`) -/

/-- `SkillcornerClient._is_response_complete`:
`not isinstance(response, dict) or 'next' not in response`. -/
def is_response_complete (response : JsonVal) : Bool :=
  !response.isObj || !response.hasKey "next"

/-- Python iteration over a value, as `list.extend` consumes it: lists yield
their elements, strings their characters, dicts their keys; other values are
not iterable (`TypeError`). -/
def JsonVal.asIterList : JsonVal → Option (List JsonVal)
  | .list xs => some xs
  | .str s => some (s.data.map (fun c => .str (String.mk [c])))
  | .obj fs => some (fs.map (fun kv => .str kv.1))
  | _ => none

/-- Outcome of the `while True` pagination loop. `calls` counts the HTTP
round trips issued (the loop itself plus whatever the caller already made).
`outOfFuel` is the fuel-exhaustion outcome: the source loop is unbounded, and
a run that is `outOfFuel` at every fuel is a non-terminating run. -/
inductive PagResult where
  | ok (results : List JsonVal) (calls : Nat)
  | pyerr (e : PyErr) (calls : Nat)
  | outOfFuel (calls : Nat)
deriving DecidableEq, Repr

/-- `SkillcornerClient._paginate_and_return`, fuel-indexed. Each iteration:
`results.extend(response['results'])` (KeyError when the key is absent,
TypeError when the response is not a dict or the value not iterable), then
`if not response['next']: break` (KeyError when absent), then a further
`super()._request` on `response['next'].split(self.base_url)[1]`
(AttributeError when `next` is not a string, IndexError when the base URL
does not occur in the link). -/
def paginate_loop (server : String → JsonVal) (base_url : String)
    (response_key : Option String) :
    Nat → JsonVal → List JsonVal → Nat → PagResult
  | 0, _, _, calls => .outOfFuel calls
  | fuel + 1, response, results, calls =>
    match response with
    | .obj fs =>
      match jlookup fs "results" with
      | none => .pyerr (.keyError "results") calls
      | some r =>
        match r.asIterList with
        | none => .pyerr .typeError calls
        | some items =>
          let results := results ++ items
          match jlookup fs "next" with
          | none => .pyerr (.keyError "next") calls
          | some nxt =>
            if !nxt.truthy then .ok results calls
            else
              match nxt with
              | .str link =>
                match (pySplit link base_url).get? 1 with
                | none => .pyerr .indexError calls
                | some rel =>
                  match fr_request server response_key rel with
                  | .error e => .pyerr e (calls + 1)
                  | .ok response' =>
                    paginate_loop server base_url response_key fuel response' results (calls + 1)
              | _ => .pyerr .attributeError calls
    | _ => .pyerr .typeError calls

/-- Outcome of `SkillcornerClient._request`: either a complete (unpaginated)
decoded response, the concatenated results of a paginated chain, a Python
exception, or fuel exhaustion. `calls` counts HTTP round trips. -/
inductive ScResult where
  | complete (response : JsonVal) (calls : Nat)
  | paged (results : List JsonVal) (calls : Nat)
  | pyerr (e : PyErr) (calls : Nat)
  | outOfFuel (calls : Nat)
deriving DecidableEq, Repr

/-- `SkillcornerClient._request`: one `super()._request` round trip, then
either return the complete response or hand it to the pagination loop. -/
def sc_request (server : String → JsonVal) (base_url : String)
    (response_key : Option String) (fuel : Nat) (endpoint : String) : ScResult :=
  match fr_request server response_key endpoint with
  | .error e => .pyerr e 1
  | .ok response =>
    if is_response_complete response then .complete response 1
    else
      match paginate_loop server base_url response_key fuel response [] 1 with
      | .ok rs calls => .paged rs calls
      | .pyerr e calls => .pyerr e calls
      | .outOfFuel calls => .outOfFuel calls

/-! ## Tracking-data strategy (`SkillcornerClient._get_tracking_data`) -/

/-- The allow-list `valid_formats = ['jsonl', 'fifa-data', 'fifa-xml']`. -/
def valid_formats : List JsonVal :=
  [.str "jsonl", .str "fifa-data", .str "fifa-xml"]

/-- Python `str.splitlines()` restricted to `\n`-terminated lines (the only
line ending line-delimited JSON uses): split on `\n`, without a trailing
empty line for a trailing newline, and `[]` on the empty string. -/
def pySplitlines (s : String) : List String :=
  if s = "" then []
  else
    let parts := pySplit s "\n"
    if s.data.getLast? = some '\n' then parts.dropLast else parts

/-- Outcome of the tracking-data strategy. `calls` counts HTTP round trips;
a `ValueError` on format validation carries `calls = 0` because it is raised
before `self._request` runs. -/
inductive TrackResult where
  | ok (v : JsonVal) (calls : Nat)
  | pyerr (e : PyErr) (calls : Nat)
  | outOfFuel (calls : Nat)
deriving DecidableEq, Repr

/-- `SkillcornerClient._get_tracking_data`. `loads` is the out-of-scope
structured-serialization codec (`orjson.loads`), taken as a parameter;
`params = none` is Python `params=None`. Validation of `file_format` against
the allow-list happens before the request; afterwards the body is either
split into lines and decoded per line (`jsonl`) or returned unchanged
(`fifa-data` / `fifa-xml`). A byte body behaves as its text here (both
Python types support `splitlines`). Falling off the end of the Python
function returns `None`. -/
def get_tracking_data (loads : String → Except PyErr JsonVal)
    (server : String → JsonVal) (base_url : String) (response_key : Option String)
    (fuel : Nat) (endpoint : String) (params : Option (List (String × JsonVal))) :
    TrackResult :=
  let paramsTruthy :=
    match params with
    | some ps => !ps.isEmpty
    | none => false
  let fmtDefaulted :=
    match params with
    | some ps => jget ps "file_format" (.str "jsonl")
    | none => .str "jsonl"
  if paramsTruthy && !(valid_formats.contains fmtDefaulted) then
    .pyerr (.valueError ("Unknown file format `" ++ pyStr fmtDefaulted ++
      "`, valid formats are: ['jsonl', 'fifa-data', 'fifa-xml']")) 0
  else
    let fetched := sc_request server base_url response_key fuel endpoint
    match fetched with
    | .pyerr e calls => .pyerr e calls
    | .outOfFuel calls => .outOfFuel calls
    | .complete data calls => track_decode loads paramsTruthy fmtDefaulted params data calls
    | .paged rs calls => track_decode loads paramsTruthy fmtDefaulted params (.list rs) calls
where
  /-- The post-request branch of `_get_tracking_data`. -/
  track_decode (loads : String → Except PyErr JsonVal) (paramsTruthy : Bool)
      (fmtDefaulted : JsonVal) (params : Option (List (String × JsonVal)))
      (data : JsonVal) (calls : Nat) : TrackResult :=
    if !paramsTruthy || fmtDefaulted = .str "jsonl" then
      match data with
      | .str s =>
        match (pySplitlines s).mapM loads with
        | .ok parsed => .ok (.list parsed) calls
        | .error e => .pyerr e calls
      | _ => .pyerr .attributeError calls
    else
      let fmtRaw :=
        match params with
        | some ps => jget ps "file_format" .null
        | none => .null
      if fmtRaw = .str "fifa-data" ∨ fmtRaw = .str "fifa-xml" then .ok data calls
      else .ok .null calls

/-! ## Persistence Helper (`FitRequest._save_data`) -/

/-- Content of a file in the modelled file system: raw bytes, or the text of
a structured serialization. -/
inductive FileContent where
  | bytes (b : List Nat)
  | text (s : String)
deriving DecidableEq, Repr

/-- The file system: an association of paths to contents (`none` via lookup
failure means the path does not exist). -/
abbrev FS := List (String × FileContent)

/-- Existing content at a path, if any. -/
def fs_lookup : FS → String → Option FileContent
  | [], _ => none
  | (p, c) :: rest, path => if p = path then some c else fs_lookup rest path

/-- Store content at a path (replacing any previous content). -/
def fs_set : FS → String → FileContent → FS
  | [], path, c => [(path, c)]
  | (p, c') :: rest, path, c =>
    if p = path then (p, c) :: rest else (p, c') :: fs_set rest path c

/-- The `data` argument of `_save_data`: raw bytes, or a decoded value to be
serialized with `orjson.dumps(..., option=orjson.OPT_INDENT_2)`. -/
inductive SaveData where
  | bytes (b : List Nat)
  | jval (v : JsonVal)
deriving DecidableEq, Repr

/-- Escape one character for a JSON string literal. -/
def jsonEscapeChar (c : Char) : List Char :=
  if c = '"' then ['\\', '"']
  else if c = '\\' then ['\\', '\\']
  else if c = '\n' then ['\\', 'n']
  else [c]

/-- Escape a string for a JSON string literal. -/
def jsonEscape (s : String) : String :=
  String.mk (s.data.map jsonEscapeChar).flatten

/-- `n` spaces of indentation. -/
def indentSpaces (n : Nat) : String :=
  String.mk (List.replicate n ' ')

mutual
/-- `orjson.dumps(v, option=orjson.OPT_INDENT_2)` rendered at indentation
level `ind`: pretty-printed JSON with two-space indentation. -/
def orjson_dumps_at (ind : Nat) : JsonVal → String
  | .null => "null"
  | .bool true => "true"
  | .bool false => "false"
  | .num n => toString n
  | .str s => "\"" ++ jsonEscape s ++ "\""
  | .list [] => "[]"
  | .list (x :: xs) =>
    "[\n" ++ dumps_items (ind + 2) (x :: xs) ++ "\n" ++ indentSpaces ind ++ "]"
  | .obj [] => "\x7b\x7d"
  | .obj (f :: fs) =>
    "\x7b\n" ++ dumps_fields (ind + 2) (f :: fs) ++ "\n" ++ indentSpaces ind ++ "\x7d"

/-- Array elements, one per line. -/
def dumps_items (ind : Nat) : List JsonVal → String
  | [] => ""
  | [x] => indentSpaces ind ++ orjson_dumps_at ind x
  | x :: rest => indentSpaces ind ++ orjson_dumps_at ind x ++ ",\n" ++ dumps_items ind rest

/-- Object members, one per line. -/
def dumps_fields (ind : Nat) : List (String × JsonVal) → String
  | [] => ""
  | [(k, v)] => indentSpaces ind ++ "\"" ++ jsonEscape k ++ "\": " ++ orjson_dumps_at ind v
  | (k, v) :: rest =>
    indentSpaces ind ++ "\"" ++ jsonEscape k ++ "\": " ++ orjson_dumps_at ind v ++ ",\n" ++
      dumps_fields ind rest
end

/-- `orjson.dumps(v, option=orjson.OPT_INDENT_2)`. -/
def orjson_dumps (v : JsonVal) : String :=
  orjson_dumps_at 0 v

/-- `FitRequest._save_data(filepath, data, mode='xb')`: `open(filepath, mode)`
— exclusive creation for mode `"xb"`, failing with `FileExistsError` when the
path exists, truncating for `"wb"` — then one write of either the raw bytes
or the serialized value. Returns the outcome together with the resulting
file system; on an exception the file system is returned unchanged. -/
def save_data (fs : FS) (filepath : String) (data : SaveData)
    (mode : String := "xb") : Except PyErr Unit × FS :=
  if mode = "xb" ∧ (fs_lookup fs filepath).isSome then
    (.error .fileExistsError, fs)
  else
    match data with
    | .bytes b => (.ok (), fs_set fs filepath (.bytes b))
    | .jval v => (.ok (), fs_set fs filepath (.text (orjson_dumps v)))

/-! ## Method Binder (`fitrequest/method_generator.py`) -/

/-- Values appearing in the descriptor dicts of a `_methods_binding` table:
strings, booleans, and lists of strings (`extra_params`). -/
inductive DVal where
  | s (v : String)
  | b (v : Bool)
  | ls (v : List String)
deriving DecidableEq, Repr

/-- A descriptor: a Python dict from field names to values, in insertion
order, keys unique. -/
abbrev MDict := List (String × DVal)

/-- Dict lookup (`d.get(k)` / `d[k]`, first binding wins). -/
def dget : MDict → String → Option DVal
  | [], _ => none
  | (k', v) :: rest, k => if k' = k then some v else dget rest k

/-- Dict assignment `d[k] = v`: an existing key keeps its position, a new key
is appended, as in Python's insertion-ordered dicts. -/
def dset : MDict → String → DVal → MDict
  | [], k, v => [(k, v)]
  | (k', v') :: rest, k, v =>
    if k' = k then (k', v) :: rest else (k', v') :: dset rest k v

/-- Key removal, as `d.pop(k, ...)` leaves the dict. -/
def dremove : MDict → String → MDict
  | [], _ => []
  | (k', v') :: rest, k =>
    if k' = k then rest else (k', v') :: dremove rest k

/-- Python truthiness on descriptor values. -/
def DVal.truthy : DVal → Bool
  | .s v => !v.isEmpty
  | .b v => v
  | .ls v => !v.isEmpty

/-- Python `str(v)` on descriptor values. -/
def dvalStr : DVal → String
  | .s v => v
  | .b true => "True"
  | .b false => "False"
  | .ls xs => "[" ++ String.intercalate ", " (xs.map (fun x => "'" ++ x ++ "'")) ++ "]"

/-- Python `s.replace(pat, rep)` for a non-empty pattern: every
non-overlapping occurrence, left to right (split on the pattern, join with
the replacement). -/
def pyReplace (s pat rep : String) : String :=
  String.intercalate rep (pySplit s pat)

/-- Python `str.format(**method)` for templates whose placeholders are plain
field names (the only shape the source's templates use; `\x7b\x7b` escapes and
format specs do not occur): each `\x7bname\x7d` is replaced by `str(method[name])`,
raising `KeyError` when the field is absent. -/
def pyFormat (tmpl : String) (m : MDict) : Except PyErr String :=
  match pySplit tmpl "\x7b" with
  | [] => .ok tmpl
  | first :: segs => do
    let parts ← segs.mapM (fun seg =>
      let name := String.mk (seg.data.takeWhile (· ≠ '\x7d'))
      let rest := String.mk ((seg.data.dropWhile (· ≠ '\x7d')).drop 1)
      match dget m name with
      | none => .error (PyErr.keyError name)
      | some v => .ok (dvalStr v ++ rest))
    .ok (first ++ String.join parts)

/-- `_MethodsGenerator._create_save_method_from(method)`:
`prefix_verb = method['name'].split('_')[0]`, then on a copy of the dict:
`name` becomes `method['name'].replace(f'{prefix_verb}_', 'save_')` (note:
`str.replace` replaces EVERY occurrence of the pattern), `exec_method` gains
an `_and_save` suffix, `extra_params` gains a trailing `'filepath'`, and a
truthy docstring gains the persistence note (else becomes `''`). -/
def create_save_method_from (m : MDict) : Except PyErr MDict :=
  match dget m "name" with
  | none => .error (.keyError "name")
  | some (.s name) =>
    let prefix_verb := (pySplit name "_").headD ""
    let r1 := dset m "name" (.s (pyReplace name (prefix_verb ++ "_") "save_"))
    let execStr :=
      match dget m "exec_method" with
      | some v => dvalStr v
      | none => "_request"
    let r2 := dset r1 "exec_method" (.s (execStr ++ "_and_save"))
    let extraE : Except PyErr (List String) :=
      match dget m "extra_params" with
      | some v =>
        if v.truthy then
          match v with
          | .ls xs => .ok (xs ++ ["filepath"])
          | _ => .error .typeError
        else .ok ["filepath"]
      | none => .ok ["filepath"]
    match extraE with
    | .error e => .error e
    | .ok extra =>
      let r3 := dset r2 "extra_params" (.ls extra)
      let doc :=
        match dget m "docstring" with
        | some v => if v.truthy then dvalStr v ++ "\nSaves the data to a file." else ""
        | none => ""
      .ok (dset r3 "docstring" (.s doc))
  | some _ => .error .attributeError

/-- One iteration of the loop in `_MethodsGenerator.get_and_extend_methods`,
acting on one descriptor of `cls._methods_binding`. The loop MUTATES the
descriptor in place: when a docstring template is configured and the
descriptor has no truthy docstring, `method['docstring'] = template.format(**method)`
writes into the descriptor; `method.pop('create_save_method', True)` then
removes that key (if present) from it. Returns the descriptor's post-loop
state together with the entries appended to `methods_extended` (the appended
reference is the same object, so it shows the popped state). -/
def process_method (tmpl : Option String) (m : MDict) :
    Except PyErr (MDict × List MDict) := do
  let m1 ←
    match tmpl with
    | some t =>
      if !t.isEmpty && !((dget m "docstring").map DVal.truthy |>.getD false) then do
        let rendered ← pyFormat t m
        pure (dset m "docstring" (.s rendered))
      else pure m
    | none => pure m
  let flagVal := (dget m1 "create_save_method").getD (.b true)
  let m2 := dremove m1 "create_save_method"
  if flagVal.truthy then do
    let saved ← create_save_method_from m2
    pure (m2, [m2, saved])
  else
    pure (m2, [m2])

/-- `_MethodsGenerator.get_and_extend_methods` over the whole binding table:
returns the post-loop states of the `cls._methods_binding` entries (the
descriptors, as mutated) paired with the `methods_extended` list. The final
`MethodDetails(**method)` construction is a read-only pydantic validation of
`methods_extended` and is not modelled. -/
def get_and_extend_methods (tmpl : Option String) :
    List MDict → Except PyErr (List MDict × List MDict)
  | [] => .ok ([], [])
  | m :: rest => do
    let (m', ext) ← process_method tmpl m
    let (post, exts) ← get_and_extend_methods tmpl rest
    .ok (m' :: post, ext ++ exts)

/-! ## The skillcorner client's declaration-time constants
(`skillcorner/client.py`) -/

/-- `BASE_URL = 'https://skillcorner.com'`. -/
def BASE_URL : String := "https://skillcorner.com"

/-- `METHOD_DOCSTRING` (the docstring template of `SkillcornerClient`). -/
def METHOD_DOCSTRING : String :=
  "Retrieve response from \x7bendpoint\x7d GET request. To learn more about it go to: https://skillcorner.com/api/docs/#\x7bdocs_url_anchor\x7d."

/-- `METHODS_BINDING`: the seventeen endpoint descriptors declared in
`skillcorner/client.py`, verbatim. -/
def METHODS_BINDING : List MDict :=
  [ [("name", .s "get_competition_editions"),
     ("endpoint", .s "/api/competition_editions/"),
     ("docs_url_anchor", .s "/competition_editions_list")],
    [("name", .s "get_competitions"),
     ("endpoint", .s "/api/competitions/"),
     ("docs_url_anchor", .s "/competitions/competitions_list")],
    [("name", .s "get_competition_competition_editions"),
     ("endpoint", .s "/api/competitions/\x7b\x7d/editions/"),
     ("docs_url_anchor", .s "/competitions/competitions_editions_list"),
     ("resource_name", .s "competition_id")],
    [("name", .s "get_competition_rounds"),
     ("endpoint", .s "/api/competitions/\x7b\x7d/rounds/"),
     ("docs_url_anchor", .s "/competitions/competitions_rounds_list"),
     ("resource_name", .s "competition_id")],
    [("name", .s "get_in_possession_off_ball_runs"),
     ("endpoint", .s "/api/in_possession/off_ball_runs/"),
     ("docs_url_anchor", .s "/in_possession/in_possession_off_ball_runs_list")],
    [("name", .s "get_in_possession_on_ball_pressures"),
     ("endpoint", .s "/api/in_possession/on_ball_pressures/"),
     ("docs_url_anchor", .s "/in_possession/in_possession_on_ball_pressures_list")],
    [("name", .s "get_in_possession_passes"),
     ("endpoint", .s "/api/in_possession/passes/"),
     ("docs_url_anchor", .s "/in_possession/in_possession_passes_list")],
    [("name", .s "get_matches"),
     ("endpoint", .s "/api/matches/"),
     ("docs_url_anchor", .s "/matches/matches_list")],
    [("name", .s "get_match"),
     ("endpoint", .s "/api/match/\x7b\x7d/"),
     ("docs_url_anchor", .s "/match/match_read"),
     ("resource_name", .s "match_id")],
    [("name", .s "get_match_data_collection"),
     ("endpoint", .s "/api/match/\x7b\x7d/data_collection/"),
     ("docs_url_anchor", .s "/match/match_data_collection_read"),
     ("resource_name", .s "match_id")],
    [("name", .s "get_match_tracking_data"),
     ("endpoint", .s "/api/match/\x7b\x7d/tracking/"),
     ("docs_url_anchor", .s "/match/match_tracking_list"),
     ("resource_name", .s "match_id"),
     ("exec_method", .s "_get_tracking_data")],
    [("name", .s "get_physical"),
     ("endpoint", .s "/api/physical/"),
     ("docs_url_anchor", .s "/physical/physical_list")],
    [("name", .s "get_players"),
     ("endpoint", .s "/api/players/"),
     ("docs_url_anchor", .s "/players/players_list")],
    [("name", .s "get_player"),
     ("endpoint", .s "/api/players/\x7b\x7d/"),
     ("docs_url_anchor", .s "/players/players_read"),
     ("resource_name", .s "player_id")],
    [("name", .s "get_seasons"),
     ("endpoint", .s "/api/seasons/"),
     ("docs_url_anchor", .s "/seasons/seasons_list")],
    [("name", .s "get_teams"),
     ("endpoint", .s "/api/teams/"),
     ("docs_url_anchor", .s "/teams/teams_list")],
    [("name", .s "get_team"),
     ("endpoint", .s "/api/teams/\x7b\x7d/"),
     ("docs_url_anchor", .s "/teams/teams_read"),
     ("resource_name", .s "team_id")] ]

/-! ## Concrete backends used by the claims -/

/-- `n` consecutive numeric results starting at `lo`, the payload of one
page of a paginated listing. -/
def page_results (lo n : Nat) : List JsonVal :=
  (List.range n).map (fun i => .num (lo + i))

/-- A deterministic backend serving a three-page chain for
`/api/players/`: pages 1 and 2 carry ten results and a `next` link, page 3
carries five results and `next: null`. -/
def three_page_server : String → JsonVal := fun e =>
  if e = "/api/players/" then
    .obj [("results", .list (page_results 0 10)),
          ("next", .str (BASE_URL ++ "/api/players/?page=2"))]
  else if e = "/api/players/?page=2" then
    .obj [("results", .list (page_results 10 10)),
          ("next", .str (BASE_URL ++ "/api/players/?page=3"))]
  else if e = "/api/players/?page=3" then
    .obj [("results", .list (page_results 20 5)), ("next", .null)]
  else .null

/-- A page whose `next` link points back at its own endpoint: the smallest
cyclic `next` chain. -/
def cyclic_page : JsonVal :=
  .obj [("results", .list [.num 1]), ("next", .str (BASE_URL ++ "/api/loop/"))]

/-- A backend on which every fetch returns `cyclic_page`, so the `next`
links form a cycle. -/
def cyclic_server : String → JsonVal := fun _ => cyclic_page

/-! ## Claims -/

/-- C1: at a configured base URL without scheme or host (`'localhost'`,
endpoint `'players'`), the constructed URL `'localhost/players'` parses with
neither a scheme nor a netloc, and `_build_final_url` evaluates to the
`ValueError` object RETURNED as an ordinary value — the claimed raising
behavior does not happen, because the source reads `return ValueError(...)`
where the evident intent (and the `-> str` annotation) call for `raise`. -/
theorem C1_invalid_url_is_returned_not_raised :
    urlparse_scheme_netloc "localhost/players" = ("", "") ∧
    build_final_url "localhost" "players" =
      .valueErrorObject "Invalid URL: localhost/players" := by
  decide

/-- C2: on a three-page chain (ten results plus a `next` link on pages one
and two, five results and a null `next` on page three), the Pagination
Wrapper returns the 25-element concatenation of the three `results` lists —
not the page envelope — and issues exactly three HTTP calls. -/
theorem C2_three_page_chain :
    sc_request three_page_server BASE_URL none 50 "/api/players/" =
      .paged (page_results 0 10 ++ page_results 10 10 ++ page_results 20 5) 3 ∧
    (page_results 0 10 ++ page_results 10 10 ++ page_results 20 5).length = 25 := by
  decide

/-- C3 counterexample: on the descriptor named `"get_budget_x"` the first
underscore-delimited word is `"get"`, and `"get_"` also occurs later in the
name (inside `"budget_"`); `str.replace` rewrites that later occurrence too,
producing `"save_budsave_x"` where the claim requires `"save_budget_x"`. -/
theorem C3_later_occurrence_also_replaced :
    (create_save_method_from [("name", .s "get_budget_x")]).map (fun r => dget r "name") =
      .ok (some (.s "save_budsave_x")) ∧
    DVal.s "save_budsave_x" ≠ DVal.s "save_budget_x" := by
  decide

/-- C3 amended: for every descriptor of this client's binding table the
synthesized sibling replaces every occurrence of (first word + `_`) with
`save_`, which on each of these seventeen names coincides with replacing the
first word only (`get_players` → `save_players`, …), and appends the
trailing `filepath` parameter. -/
theorem C3_save_variants_of_binding_table :
    (METHODS_BINDING.all (fun m =>
      match create_save_method_from m, dget m "name" with
      | .ok r, some (.s name) =>
        dget r "name" ==
          some (.s ("save_" ++ String.intercalate "_" ((pySplit name "_").tail))) &&
        dget r "extra_params" == some (.ls ["filepath"])
      | _, _ => false)) = true := by
  decide

/-- C4 counterexample: with declared response-key `"data"` and decoded body
`{'a': 1}` (a mapping without that key), the executor raises
`KeyError('data')` instead of returning the full body as the claim states. -/
theorem C4_missing_key_raises :
    unwrap_response (.obj [("a", .num 1)]) (some "data") = .error (.keyError "data") ∧
    (Except.error (PyErr.keyError "data") : Except PyErr JsonVal) ≠
      .ok (.obj [("a", .num 1)]) := by
  decide

/-- C4 amended: with a declared non-empty response-key, a mapping body
containing the key yields exactly the value at the key; a mapping body
without the key fails with a `KeyError`; a non-mapping body, an undeclared
key, and an empty-string key all yield the full decoded body unchanged. -/
theorem C4_unwrap_characterization :
    (∀ fs k v, k ≠ "" → jlookup fs k = some v →
      unwrap_response (.obj fs) (some k) = .ok v) ∧
    (∀ fs k, k ≠ "" → jlookup fs k = none →
      unwrap_response (.obj fs) (some k) = .error (.keyError k)) ∧
    (∀ r k, r.isObj = false → unwrap_response r (some k) = .ok r) ∧
    (∀ r, unwrap_response r none = .ok r) ∧
    (∀ r, unwrap_response r (some "") = .ok r) := by
  refine ⟨?_, ?_, ?_, ?_, ?_⟩
  · intro fs k v hk hlook
    simp [unwrap_response, hk, hlook]
  · intro fs k hk hlook
    simp [unwrap_response, hk, hlook]
  · intro r k hobj
    cases r <;> simp_all [unwrap_response, JsonVal.isObj]
  · intro r
    cases r <;> simp [unwrap_response]
  · intro r
    cases r <;> simp [unwrap_response]

/-- C4 witness: the amended characterization at concrete inputs — key
present, key absent, non-mapping body, no declared key, empty key. -/
theorem C4_unwrap_witness :
    unwrap_response (.obj [("data", .num 7)]) (some "data") = .ok (.num 7) ∧
    unwrap_response (.obj [("a", .num 1)]) (some "missing") =
      .error (.keyError "missing") ∧
    unwrap_response (.list []) (some "data") = .ok (.list []) ∧
    unwrap_response (.obj [("a", .num 1)]) none = .ok (.obj [("a", .num 1)]) ∧
    unwrap_response (.num 3) (some "") = .ok (.num 3) :=
  ⟨C4_unwrap_characterization.1 [("data", .num 7)] "data" (.num 7) (by decide) (by decide),
   C4_unwrap_characterization.2.1 [("a", .num 1)] "missing" (by decide) (by decide),
   C4_unwrap_characterization.2.2.1 (.list []) "data" (by decide),
   C4_unwrap_characterization.2.2.2.1 (.obj [("a", .num 1)]),
   C4_unwrap_characterization.2.2.2.2 (.num 3)⟩

/-- C5: every list-valued query parameter is transmitted as the comma-joined
string of the `str()`-conversions of its elements, and every other value is
transmitted unchanged, under the same key. -/
theorem C5_param_serialization (params : List (String × JsonVal))
    (k : String) (v : JsonVal) (h : (k, v) ∈ params) :
    (k, match v with
        | .list xs => JsonVal.str (String.intercalate "," (xs.map pyStr))
        | w => w) ∈ transform_params params := by
  unfold transform_params
  refine List.mem_map.mpr ⟨(k, v), h, ?_⟩
  cases v <;> rfl

/-- C5 witness: a list value is joined to `"1,2"`, under its key, in the
transformed mapping. -/
theorem C5_param_serialization_witness :
    ("ids", JsonVal.str "1,2") ∈
      transform_params [("ids", .list [.num 1, .num 2]), ("q", .str "x")] := by
  have h := C5_param_serialization
    [("ids", .list [.num 1, .num 2]), ("q", .str "x")] "ids"
    (.list [.num 1, .num 2]) (by decide)
  simpa using h

set_option maxRecDepth 400000 in
/-- C6 counterexample: running method generation over the skillcorner
client's declared binding table (with its configured docstring template)
leaves the table's entries DIFFERENT from their declared values — the loop
writes a rendered `docstring` field into each descriptor dict in place, so
descriptors are mutated after client-type declaration. -/
theorem C6_binding_table_mutated :
    (get_and_extend_methods (some METHOD_DOCSTRING) METHODS_BINDING).map Prod.fst ≠
      .ok METHODS_BINDING := by
  decide

set_option maxRecDepth 400000 in
/-- C6 amended: the mutation is exactly the docstring write — after method
generation each entry of the binding table equals its declared value with a
`docstring` field set to the rendered template (a `create_save_method` key
would additionally have been popped, but no entry declares one); every
originally declared field keeps its value. -/
theorem C6_mutation_is_docstring_write :
    (get_and_extend_methods (some METHOD_DOCSTRING) METHODS_BINDING).map Prod.fst =
      .ok (METHODS_BINDING.map (fun m =>
        match pyFormat METHOD_DOCSTRING m with
        | .ok d => dset m "docstring" (.s d)
        | .error _ => m)) := by
  decide

/-- C7: saving to a destination path that already exists fails with a
`FileExistsError` and leaves the file system — in particular the existing
file's contents — unchanged: the path is opened in exclusive-create binary
mode (`'xb'`), so an overwrite never happens silently. -/
theorem C7_save_never_overwrites (fs : FS) (path : String) (data : SaveData)
    (h : (fs_lookup fs path).isSome) :
    save_data fs path data "xb" = (.error .fileExistsError, fs) := by
  unfold save_data
  rw [if_pos ⟨rfl, h⟩]

/-- C7 witness: an existing file survives a save attempt, which fails with
`FileExistsError`. -/
theorem C7_save_never_overwrites_witness :
    save_data [("out.json", .text "old")] "out.json" (.jval .null) "xb" =
      (.error .fileExistsError, [("out.json", .text "old")]) :=
  C7_save_never_overwrites [("out.json", .text "old")] "out.json" (.jval .null)
    (by decide)

/-- C8: whenever the caller's params mapping carries a `file_format` value
outside the allow-list `\x7b'jsonl', 'fifa-data', 'fifa-xml'\x7d`, the
tracking-data strategy fails with a `ValueError` and issues zero HTTP calls,
for every backend, codec, base URL, response key, fuel and endpoint. -/
theorem C8_bad_format_fails_before_request
    (loads : String → Except PyErr JsonVal) (server : String → JsonVal)
    (base_url : String) (rk : Option String) (fuel : Nat) (endpoint : String)
    (ps : List (String × JsonVal)) (fmt : JsonVal)
    (hkey : jlookup ps "file_format" = some fmt)
    (hbad : valid_formats.contains fmt = false) :
    get_tracking_data loads server base_url rk fuel endpoint (some ps) =
      .pyerr (.valueError ("Unknown file format `" ++ pyStr fmt ++
        "`, valid formats are: ['jsonl', 'fifa-data', 'fifa-xml']")) 0 := by
  have hne : ps.isEmpty = false := by
    cases ps with
    | nil => simp [jlookup] at hkey
    | cons hd tl => rfl
  have hget : jget ps "file_format" (.str "jsonl") = fmt := by
    simp [jget, hkey]
  unfold get_tracking_data
  dsimp only
  rw [hne, hget, hbad]
  rfl

/-- C8 witness: `file_format = "bogus"` fails with the `ValueError` and zero
HTTP calls on a concrete backend. -/
theorem C8_bad_format_witness :
    get_tracking_data (fun _ => .ok .null) (fun _ => .null) BASE_URL none 10
      "/api/match/1/tracking/" (some [("file_format", .str "bogus")]) =
      .pyerr (.valueError
        "Unknown file format `bogus`, valid formats are: ['jsonl', 'fifa-data', 'fifa-xml']") 0 :=
  C8_bad_format_fails_before_request (fun _ => .ok .null) (fun _ => .null)
    BASE_URL none 10 "/api/match/1/tracking/" [("file_format", .str "bogus")]
    (.str "bogus") (by decide) (by decide)

/-- On the cyclic backend the pagination loop exhausts every fuel, making
one further HTTP call per iteration. -/
theorem cyclic_loop_exhausts_fuel (fuel : Nat) :
    ∀ acc calls, paginate_loop cyclic_server BASE_URL none fuel cyclic_page acc calls =
      .outOfFuel (calls + fuel) := by
  induction fuel with
  | zero => intro acc calls; rfl
  | succ n ih =>
    intro acc calls
    have hstep : paginate_loop cyclic_server BASE_URL none (n + 1) cyclic_page acc calls =
        paginate_loop cyclic_server BASE_URL none n cyclic_page
          (acc ++ [JsonVal.num 1]) (calls + 1) := rfl
    rw [hstep, ih]
    congr 1
    omega

/-- C9: the pagination loop has no iteration bound — on a server whose
`next` links form a cycle (each page carrying a `results` list and a
non-empty `next`), the Pagination Wrapper runs out of every fuel: the run
does not terminate. -/
theorem C9_cyclic_next_never_terminates (fuel : Nat) :
    sc_request cyclic_server BASE_URL none fuel "/api/loop/" = .outOfFuel (1 + fuel) := by
  have h := cyclic_loop_exhausts_fuel fuel [] 1
  unfold sc_request
  rw [show fr_request cyclic_server none "/api/loop/" = .ok cyclic_page from rfl]
  simp only [show is_response_complete cyclic_page = false from rfl, Bool.false_eq_true,
    if_false, h]

/-- C10: once a decoded first page is classified as paginated (a mapping
containing `"next"`), the loop indexes `"results"` and `"next"`
unconditionally — (i) a first page containing `"next"` but lacking
`"results"` makes the whole call fail with `KeyError('results')` after its
single HTTP fetch; (ii) any page reaching a loop iteration without
`"results"` fails with `KeyError('results')`; (iii) any such page with a
`"results"` list but no `"next"` fails with `KeyError('next')` — never
returning a result. -/
theorem C10_paginated_pages_need_both_keys :
    (∀ (server : String → JsonVal) (e : String) (fs : List (String × JsonVal)) (fuel : Nat),
      server e = .obj fs → (jlookup fs "next").isSome →
      jlookup fs "results" = none →
      sc_request server BASE_URL none (fuel + 1) e = .pyerr (.keyError "results") 1) ∧
    (∀ (server : String → JsonVal) (base : String) (rk : Option String) (fuel : Nat)
      (fsr : List (String × JsonVal)) (acc : List JsonVal) (calls : Nat),
      jlookup fsr "results" = none →
      paginate_loop server base rk (fuel + 1) (.obj fsr) acc calls =
        .pyerr (.keyError "results") calls) ∧
    (∀ (server : String → JsonVal) (base : String) (rk : Option String) (fuel : Nat)
      (fsr : List (String × JsonVal)) (xs acc : List JsonVal) (calls : Nat),
      jlookup fsr "results" = some (.list xs) →
      jlookup fsr "next" = none →
      paginate_loop server base rk (fuel + 1) (.obj fsr) acc calls =
        .pyerr (.keyError "next") calls) := by
  refine ⟨?_, ?_, ?_⟩
  · intro server e fs fuel hsrv hnext hres
    have h1 : fr_request server none e = .ok (.obj fs) := by
      unfold fr_request
      rw [hsrv]
      rfl
    have hcomp : is_response_complete (.obj fs) = false := by
      simp [is_response_complete, JsonVal.isObj, JsonVal.hasKey, hnext]
    have h2 : paginate_loop server BASE_URL none (fuel + 1) (.obj fs) [] 1 =
        .pyerr (.keyError "results") 1 := by
      simp only [paginate_loop]
      rw [hres]
    simp only [sc_request, h1, hcomp, Bool.false_eq_true, if_false, h2]
  · intro server base rk fuel fsr acc calls hres
    simp only [paginate_loop]
    rw [hres]
  · intro server base rk fuel fsr xs acc calls hres hnext
    simp only [paginate_loop]
    rw [hres, hnext]
    rfl

/-- C10 witness: the three failure shapes at concrete pages — a first page
`\x7b'next': None\x7d` without `'results'`, a loop page without `'results'`, and a
loop page with `'results'` but no `'next'`. -/
theorem C10_paginated_pages_need_both_keys_witness :
    sc_request (fun _ => .obj [("next", .null)]) BASE_URL none 1 "/x" =
      .pyerr (.keyError "results") 1 ∧
    paginate_loop (fun _ => .null) BASE_URL (some "k") 1
      (.obj [("next", .str "u")]) [] 5 = .pyerr (.keyError "results") 5 ∧
    paginate_loop (fun _ => .null) BASE_URL none 1
      (.obj [("results", .list [])]) [] 2 = .pyerr (.keyError "next") 2 :=
  ⟨C10_paginated_pages_need_both_keys.1 (fun _ => .obj [("next", .null)]) "/x"
      [("next", .null)] 0 rfl (by decide) (by decide),
   C10_paginated_pages_need_both_keys.2.1 (fun _ => .null) BASE_URL (some "k") 0
      [("next", .str "u")] [] 5 (by decide),
   C10_paginated_pages_need_both_keys.2.2 (fun _ => .null) BASE_URL none 0
      [("results", .list [])] [] [] 2 (by decide) (by decide)⟩

end Spec2Proof
